import Mathlib

/-!
Verification of the NutriVision application (`src/app.py`) against its
specification. Python strings are embedded as `List Char`; the SQLite
tables as Lean lists; the regex helpers as explicit character scanners
that follow the leftmost-match, greedy semantics of `re.search` for the
three concrete patterns the source uses; SHA-256 (from `hashlib`) is
implemented in full over `Nat` arithmetic mod 2^32.
-/

namespace NutriVision

/-- Python `str` values are modelled as lists of characters. -/
abbrev Str := List Char

/-- Coerce a Lean string literal into the `Str` model. -/
def str (s : String) : Str := s.toList

/-! ## Character classes used by the regexes in `app.py`

`\d` is modelled as the ASCII digits, `\s` as the six ASCII whitespace
characters Python treats as `\s`, and `\w` as ASCII alphanumerics plus
underscore. The AI responses and all inputs in the spec's examples are
ASCII, where these classes agree with Python's. -/

/-- The `\s` character class (ASCII subset). -/
def isSpaceChar (c : Char) : Bool :=
  c = ' ' || c = '\t' || c = '\n' || c = '\x0d' || c = '\x0b' || c = '\x0c'

/-- The `\w` character class (ASCII subset). -/
def isWordChar (c : Char) : Bool :=
  c.isAlphanum || c = '_'

/-- The `[:\s]` character class used by `extract_macros`. -/
def isSepChar (c : Char) : Bool :=
  c = ':' || isSpaceChar c

/-- Numeric value of a digit run, as `int(...)` computes it. -/
def digitsToNat (ds : Str) : Nat :=
  ds.foldl (fun n c => 10 * n + (c.toNat - '0'.toNat)) 0

/-- Case-insensitively consume the literal pattern `p` (given in lowercase)
from the front of `s`; return the remainder on success. This models a
literal regex fragment under `re.I`. -/
def consumeCI : Str → Str → Option Str
  | [], s => some s
  | _ :: _, [] => none
  | p :: ps, c :: cs => if c.toLower = p then consumeCI ps cs else none

/-! ## `extract_calories` (app.py lines 64-66)

`re.search(r'calorie[s]?\s*[:\-]?\s*(\d+)', text, re.I)`. For this pattern
greedy matching never needs to backtrack: the characters given back by
`[s]?`, `\s*` or `[:\-]?` can never be matched by the following pieces
(`s` and whitespace are not digits, colons or dashes), so the scanner
below consumes each optional piece greedily and is exact. -/

/-- Try to match `calorie[s]?\s*[:\-]?\s*(\d+)` at the start of `s`,
returning the captured integer. -/
def matchCaloriesAt (s : Str) : Option Nat :=
  match consumeCI (str "calorie") s with
  | none => none
  | some r0 =>
    let r1 := match r0 with
      | c :: cs => if c.toLower = 's' then cs else r0
      | [] => r0
    let r2 := r1.dropWhile isSpaceChar
    let r3 := match r2 with
      | c :: cs => if c = ':' || c = '-' then cs else r2
      | [] => r2
    let r4 := r3.dropWhile isSpaceChar
    let ds := r4.takeWhile Char.isDigit
    if ds.isEmpty then none else some (digitsToNat ds)

/-- The `re.search` semantics: try the matcher at each start position, left to
right, and return the first success. -/
def reSearch (m : Str → Option Nat) : Str → Option Nat
  | [] => m []
  | c :: cs =>
    match m (c :: cs) with
    | some n => some n
    | none => reSearch m cs

/-- The function `extract_calories` from app.py: first match of the calorie pattern,
or `0` when there is none. -/
def extract_calories (text : Str) : Nat :=
  (reSearch matchCaloriesAt text).getD 0

/-! ## `extract_macros` (app.py lines 68-74)

Three searches: `Protein[:\s]+(\d+)`, `Carb\w*[:\s]+(\d+)`,
`Fat\w*[:\s]+(\d+)`, all under `re.I`. Greedy matching is again exact:
characters given back by `\w*` are word characters, which `[:\s]+` cannot
match, and characters given back by `[:\s]+` are not digits. Note that
`[:\s]+` requires at least one separator character. -/

/-- Match `[:\s]+(\d+)` at the start of `s`: one or more separator
characters, then the captured digit run. -/
def matchSepDigits (s : Str) : Option Nat :=
  let seps := s.takeWhile isSepChar
  if seps.isEmpty then none
  else
    let ds := (s.dropWhile isSepChar).takeWhile Char.isDigit
    if ds.isEmpty then none else some (digitsToNat ds)

/-- Try to match `Protein[:\s]+(\d+)` at the start of `s`. -/
def matchProteinAt (s : Str) : Option Nat :=
  match consumeCI (str "protein") s with
  | none => none
  | some r => matchSepDigits r

/-- Try to match `Carb\w*[:\s]+(\d+)` at the start of `s`. -/
def matchCarbAt (s : Str) : Option Nat :=
  match consumeCI (str "carb") s with
  | none => none
  | some r => matchSepDigits (r.dropWhile isWordChar)

/-- Try to match `Fat\w*[:\s]+(\d+)` at the start of `s`. -/
def matchFatAt (s : Str) : Option Nat :=
  match consumeCI (str "fat") s with
  | none => none
  | some r => matchSepDigits (r.dropWhile isWordChar)

/-- The function `extract_macros` from app.py: the triple of first matches when all
three patterns match, and `(None, None, None)` otherwise. -/
def extract_macros (text : Str) : Option Nat × Option Nat × Option Nat :=
  let p := reSearch matchProteinAt text
  let c := reSearch matchCarbAt text
  let f := reSearch matchFatAt text
  match p, c, f with
  | some pv, some cv, some fv => (some pv, some cv, some fv)
  | _, _, _ => (none, none, none)

/-! ## `hash_pass` (app.py lines 61-62)

`hashlib.sha256(p.encode()).hexdigest()`: SHA-256 of the UTF-8 encoding
of the password, rendered as 64 lowercase hex characters. SHA-256 is
implemented below over `Nat`, with 32-bit words kept reduced mod `2^32`.
The round constants are derived, as in the standard, from the fractional
parts of the cube roots (square roots for the initial state) of the first
64 primes, via exact integer root extraction. -/

/-- Reduce to a 32-bit word. -/
def w32 (n : Nat) : Nat := n % 4294967296

/-- Right rotation of a 32-bit word by `k` positions. -/
def rotr32 (k x : Nat) : Nat := w32 (x / 2 ^ k + x * 2 ^ (32 - k))

/-- Bitwise complement of a 32-bit word. -/
def not32 (x : Nat) : Nat := 4294967295 - x

/-- SHA-256 `Ch` function. -/
def ch32 (x y z : Nat) : Nat := (x &&& y) ^^^ (not32 x &&& z)

/-- SHA-256 `Maj` function. -/
def maj32 (x y z : Nat) : Nat := (x &&& y) ^^^ (x &&& z) ^^^ (y &&& z)

/-- SHA-256 `Σ0`. -/
def bigSigma0 (x : Nat) : Nat := rotr32 2 x ^^^ rotr32 13 x ^^^ rotr32 22 x

/-- SHA-256 `Σ1`. -/
def bigSigma1 (x : Nat) : Nat := rotr32 6 x ^^^ rotr32 11 x ^^^ rotr32 25 x

/-- SHA-256 `σ0`. -/
def smallSigma0 (x : Nat) : Nat := rotr32 7 x ^^^ rotr32 18 x ^^^ x / 2 ^ 3

/-- SHA-256 `σ1`. -/
def smallSigma1 (x : Nat) : Nat := rotr32 17 x ^^^ rotr32 19 x ^^^ x / 2 ^ 10

/-- Primality test by trial division. -/
def isPrimeB (n : Nat) : Bool :=
  2 ≤ n && (List.range n).all fun d => d < 2 || n % d != 0

/-- The first 64 primes (2, 3, 5, ..., 311). -/
def sha256Primes : List Nat := ((List.range 312).filter isPrimeB).take 64

/-- Binary search for the integer cube root; invariant `lo^3 ≤ n < hi^3`. -/
def icbrtGo : Nat → Nat → Nat → Nat → Nat
  | 0, lo, _, _ => lo
  | fuel + 1, lo, hi, n =>
    if hi ≤ lo + 1 then lo
    else
      let m := (lo + hi) / 2
      if m ^ 3 ≤ n then icbrtGo fuel m hi n else icbrtGo fuel lo m n

/-- Integer cube root. -/
def icbrt (n : Nat) : Nat := icbrtGo 200 0 (n + 2) n

/-- The 64 SHA-256 round constants: the first 32 bits of the fractional
parts of the cube roots of the first 64 primes. -/
def sha256K : List Nat := sha256Primes.map fun p => icbrt (p * 2 ^ 96) % 2 ^ 32

/-- The 8 initial hash words: the first 32 bits of the fractional parts of
the square roots of the first 8 primes. -/
def sha256H0 : List Nat :=
  (sha256Primes.take 8).map fun p => Nat.sqrt (p * 2 ^ 64) % 2 ^ 32

/-- The eight 32-bit working words of the SHA-256 state. -/
structure Hash8 where
  a : Nat
  b : Nat
  c : Nat
  d : Nat
  e : Nat
  f : Nat
  g : Nat
  h : Nat

/-- Initial SHA-256 state. -/
def sha256Init : Hash8 :=
  ⟨sha256H0.getD 0 0, sha256H0.getD 1 0, sha256H0.getD 2 0, sha256H0.getD 3 0,
   sha256H0.getD 4 0, sha256H0.getD 5 0, sha256H0.getD 6 0, sha256H0.getD 7 0⟩

/-- UTF-8 encoding of one character, as Python's `str.encode()` produces. -/
def utf8Bytes (c : Char) : List Nat :=
  let n := c.toNat
  if n < 128 then [n]
  else if n < 2048 then [192 + n / 64, 128 + n % 64]
  else if n < 65536 then [224 + n / 4096, 128 + n / 64 % 64, 128 + n % 64]
  else [240 + n / 262144, 128 + n / 4096 % 64, 128 + n / 64 % 64, 128 + n % 64]

/-- UTF-8 encoding of a string (Python `p.encode()`). -/
def utf8Encode (s : Str) : List Nat := (s.map utf8Bytes).flatten

/-- Big-endian byte rendering of `n` in `k` bytes. -/
def toBytesBE (k n : Nat) : List Nat :=
  (List.range k).map fun i => n / 256 ^ (k - 1 - i) % 256

/-- SHA-256 padding: append `0x80`, zeros to 56 mod 64, and the 64-bit
big-endian bit length. -/
def sha256Pad (msg : List Nat) : List Nat :=
  msg ++ [128] ++ List.replicate ((119 - msg.length % 64) % 64) 0
      ++ toBytesBE 8 (8 * msg.length)

/-- Big-endian 32-bit word from four bytes. -/
def bytesToWordBE (bs : List Nat) : Nat := bs.foldl (fun n b => 256 * n + b) 0

/-- The sixteen 32-bit words of a 64-byte block. -/
def blockWords (block : List Nat) : List Nat :=
  (List.range 16).map fun i => bytesToWordBE ((block.drop (4 * i)).take 4)

/-- Extend the 16 block words by `fuel` more schedule words. -/
def scheduleGo : Nat → List Nat → List Nat
  | 0, w => w
  | fuel + 1, w =>
    let l := w.length
    let next := w32 (smallSigma1 (w.getD (l - 2) 0) + w.getD (l - 7) 0
        + smallSigma0 (w.getD (l - 15) 0) + w.getD (l - 16) 0)
    scheduleGo fuel (w ++ [next])

/-- The 64-entry message schedule of a block. -/
def sha256Schedule (w16 : List Nat) : List Nat := scheduleGo 48 w16

/-- One SHA-256 compression round; `kw` is the (constant, schedule) pair. -/
def sha256Step (st : Hash8) (kw : Nat × Nat) : Hash8 :=
  let t1 := w32 (st.h + bigSigma1 st.e + ch32 st.e st.f st.g + kw.1 + kw.2)
  let t2 := w32 (bigSigma0 st.a + maj32 st.a st.b st.c)
  ⟨w32 (t1 + t2), st.a, st.b, st.c, w32 (st.d + t1), st.e, st.f, st.g⟩

/-- Process one 64-byte block: 64 rounds, then add into the chaining state. -/
def sha256Block (st : Hash8) (block : List Nat) : Hash8 :=
  let w := sha256Schedule (blockWords block)
  let r := (sha256K.zip w).foldl sha256Step st
  ⟨w32 (st.a + r.a), w32 (st.b + r.b), w32 (st.c + r.c), w32 (st.d + r.d),
   w32 (st.e + r.e), w32 (st.f + r.f), w32 (st.g + r.g), w32 (st.h + r.h)⟩

/-- SHA-256 of a byte sequence. -/
def sha256Bytes (msg : List Nat) : Hash8 :=
  let padded := sha256Pad msg
  ((List.range (padded.length / 64)).map
    fun i => (padded.drop (64 * i)).take 64).foldl sha256Block sha256Init

/-- Lowercase hex character for a value below 16. -/
def hexChar (n : Nat) : Char :=
  if n < 10 then Char.ofNat (48 + n) else Char.ofNat (87 + n)

/-- Eight lowercase hex characters of a 32-bit word, most significant
nibble first. -/
def wordHex (n : Nat) : Str := (List.range 8).map fun i => hexChar (n / 16 ^ (7 - i) % 16)

/-- The 64-character lowercase hex digest (Python `.hexdigest()`). -/
def hexDigest (st : Hash8) : Str :=
  ([st.a, st.b, st.c, st.d, st.e, st.f, st.g, st.h].map wordHex).flatten

/-- The function `hash_pass` from app.py: `hashlib.sha256(p.encode()).hexdigest()`. -/
def hash_pass (p : Str) : Str := hexDigest (sha256Bytes (utf8Encode p))

/-! ## Persistence layer

The two SQLite tables of `init_db` are modelled as lists of rows. The
`history.id` autoincrement column is never read by the application (the
calendar `SELECT` projects `date, meal, calories` and filters on
`username`), so rows carry only the five application-visible columns. -/

/-- A row of the `users` table: `(username, password)` where `password`
stores the hex digest. -/
abbrev UsersTable := List (Str × Str)

/-- A row of the `history` table (without the unused surrogate `id`). -/
structure HistoryEntry where
  username : Str
  date : Str
  meal : Str
  calories : Nat
  details : Str
deriving DecidableEq

/-- The `history` table. -/
abbrev HistoryTable := List HistoryEntry

/-- The query `SELECT password FROM users WHERE username=?` followed by `fetchone()`:
the stored hash of the first (by primary-key uniqueness, only) row with
that exact username. -/
def findUser (users : UsersTable) (u : Str) : Option Str :=
  (users.find? fun r => decide (r.1 = u)).map (·.2)

/-- SQLite TEXT comparison (`memcmp` on UTF-8 bytes, which for code points
is lexicographic order): is `s` less than or equal to `t`? -/
def strLe : Str → Str → Bool
  | [], _ => true
  | _ :: _, [] => false
  | a :: as, b :: bs =>
    if a.toNat < b.toNat then true
    else if b.toNat < a.toNat then false
    else strLe as bs

/-- The descending `ORDER BY date DESC` relation: row `x` comes no later
than row `y` when `y`'s date string is `≤` `x`'s. -/
def dateDesc (x y : HistoryEntry) : Prop := strLe y.date x.date = true

instance : DecidableRel dateDesc := fun x y => decEq (strLe y.date x.date) true

/-- The query `SELECT date, meal, calories FROM history WHERE username=? ORDER BY
date DESC` (app.py lines 238-243): the rows of the current user sorted by
the stored date string, descending. -/
def listHistory (hist : HistoryTable) (u : Str) : HistoryTable :=
  List.insertionSort dateDesc (hist.filter fun e => decide (e.username = u))

/-! ## Session state and auth handlers (app.py lines 97-164) -/

/-- The Streamlit session slots `logged_in` and `username`. -/
structure SessionState where
  logged_in : Bool
  username : Str
deriving DecidableEq

/-- Session defaults established on first contact. -/
def initSession : SessionState := ⟨false, []⟩

/-- Outcome of the Login button handler: the new session state and the
inline error, if any. -/
structure LoginResult where
  session : SessionState
  error : Option String
deriving DecidableEq

/-- The Login tab handler (app.py lines 140-149): fetch the stored hash
for `u`; on a hash match set `logged_in`/`username`, otherwise leave the
session as it was and show "Invalid credentials". -/
def loginHandler (users : UsersTable) (s : SessionState) (u p : Str) : LoginResult :=
  match findUser users u with
  | some stored =>
    if stored = hash_pass p then ⟨⟨true, u⟩, none⟩
    else ⟨s, some "Invalid credentials"⟩
  | none => ⟨s, some "Invalid credentials"⟩

/-- Failures the `INSERT INTO users` statement can raise. The source's
bare `except:` does not inspect which one occurred. -/
inductive DBError where
  | duplicateKey
  | otherFailure
deriving DecidableEq

/-- The statement `INSERT INTO users VALUES (?,?)`: fails on a primary-key collision,
otherwise appends the row. -/
def createUser (users : UsersTable) (u hsh : Str) : Except DBError UsersTable :=
  if users.any fun r => decide (r.1 = u) then .error .duplicateKey
  else .ok (users ++ [(u, hsh)])

/-- The bare `except:` branch of the Create Account handler: every `.ok`
shows "Account created", every error — whichever it is — shows
"Username exists". -/
def accountCreationMessage : Except DBError UsersTable → String
  | .ok _ => "Account created"
  | .error _ => "Username exists"

/-- Outcome of the Create Account button handler. -/
structure RegisterResult where
  users : UsersTable
  session : SessionState
  message : String
deriving DecidableEq

/-- The Create Account tab handler (app.py lines 154-162): try the insert
with the hashed password; the session is not touched in either branch. -/
def registerHandler (users : UsersTable) (s : SessionState) (nu np : Str) : RegisterResult :=
  let r := createUser users nu (hash_pass np)
  match r with
  | .ok users2 => ⟨users2, s, accountCreationMessage r⟩
  | .error _ => ⟨users, s, accountCreationMessage r⟩

/-! ## The Analyse Food handler (app.py lines 194-215) -/

/-- The pair Streamlit exposes for an uploaded file and that the handler
forwards to the AI call: MIME type and raw bytes. -/
structure UploadedImage where
  mime_type : Str
  data : List Nat
deriving DecidableEq

/-- A local timestamp, the input to `datetime.now().strftime`. -/
structure Timestamp where
  day : Nat
  month : Nat
  year : Nat
  hour : Nat
  minute : Nat
deriving DecidableEq

/-- Two-digit zero-padded decimal field (`%d`, `%m`, `%H`, `%M`). -/
def pad2 (n : Nat) : Str :=
  if n < 10 then '0' :: [hexChar n] else str (toString n)

/-- The call `strftime("%d-%m-%Y %H:%M")`: the stored date string. -/
def formatDate (t : Timestamp) : Str :=
  pad2 t.day ++ '-' :: pad2 t.month ++ '-' :: str (toString t.year)
    ++ ' ' :: pad2 t.hour ++ ':' :: pad2 t.minute

/-- Python `text.split("\n")`: split on every newline, keeping empty
pieces, never returning an empty list. -/
def splitNl : Str → List Str
  | [] => [[]]
  | c :: cs =>
    if c = '\n' then [] :: splitNl cs
    else
      match splitNl cs with
      | [] => [[c]]
      | piece :: rest => (c :: piece) :: rest

/-- The expression `result.split("\n")[0]`: the meal label stored by the handler. -/
def mealLabel (result : Str) : Str := (splitNl result).headD []

/-- Outcome of one Analyse Food click: the history table afterwards, the
warning if one was shown, and whether the AI service was invoked. -/
structure AnalyseOutcome where
  history : HistoryTable
  warning : Option String
  aiCalled : Bool
deriving DecidableEq

/-- The Analyse Food button handler. Without an upload it warns and stops.
Otherwise it calls the AI service — an external black box whose response
text is the `aiResult` argument — and runs `INSERT INTO history` with the
current user, the formatted timestamp, the first line of the response,
the extracted calories, and the full response. -/
def analyseHandler (hist : HistoryTable) (u : Str) (uploaded : Option UploadedImage)
    (aiResult : Str) (now : Timestamp) : AnalyseOutcome :=
  match uploaded with
  | none => ⟨hist, some "Upload image first", false⟩
  | some _ =>
    ⟨hist ++ [⟨u, formatDate now, mealLabel aiResult, extract_calories aiResult, aiResult⟩],
     none, true⟩

/-! ## Calendar rendering (app.py lines 247-266) -/

/-- The high-calorie threshold constant (app.py line 23). -/
def HIGH_CAL_THRESHOLD : Nat := 500

/-- The card accent color: `"#FF5252" if cal >= HIGH_CAL_THRESHOLD else
"#81C784"` (app.py line 255). -/
def cardColor (cal : Nat) : String :=
  if cal ≥ HIGH_CAL_THRESHOLD then "#FF5252" else "#81C784"

/-- The card icon: `"🔴" if cal >= HIGH_CAL_THRESHOLD else "🟢"`
(app.py line 256). -/
def cardIcon (cal : Nat) : String :=
  if cal ≥ HIGH_CAL_THRESHOLD then "🔴" else "🟢"

/-- One rendered history card: icon, meal label, color. -/
def renderCard (e : HistoryEntry) : String × Str × String :=
  (cardIcon e.calories, e.meal, cardColor e.calories)

/-! ## Helper lemmas -/

/-- The order `strLe` is total. -/
theorem strLe_total : ∀ s t : Str, strLe s t = true ∨ strLe t s = true
  | [], _ => Or.inl rfl
  | _ :: _, [] => Or.inr rfl
  | a :: as, b :: bs => by
    simp only [strLe]
    rcases Nat.lt_trichotomy a.toNat b.toNat with h | h | h
    · left; simp [h]
    · simp [h, Nat.lt_irrefl]
      exact strLe_total as bs
    · right; simp [h, Nat.lt_asymm h]

/-- Unfolding of `strLe` on two nonempty strings. -/
theorem strLe_cons (a b : Char) (as bs : Str) :
    strLe (a :: as) (b :: bs) = true ↔
      a.toNat < b.toNat ∨ (a.toNat = b.toNat ∧ strLe as bs = true) := by
  simp only [strLe]
  split_ifs with h1 h2
  · simp [h1]
  · simp only [Bool.false_eq_true, false_iff]
    rintro (h | ⟨h, _⟩) <;> omega
  · constructor
    · intro h; exact Or.inr ⟨by omega, h⟩
    · rintro (h | ⟨_, h⟩)
      · omega
      · exact h

/-- The order `strLe` is transitive. -/
theorem strLe_trans : ∀ s t u : Str, strLe s t = true → strLe t u = true → strLe s u = true
  | [], _, _, _, _ => rfl
  | _ :: _, [], _, h1, _ => by simp [strLe] at h1
  | _ :: _, _ :: _, [], _, h2 => by simp [strLe] at h2
  | a :: as, b :: bs, c :: cs, h1, h2 => by
    rw [strLe_cons] at h1 h2 ⊢
    rcases h1 with h1 | ⟨he1, hr1⟩ <;> rcases h2 with h2 | ⟨he2, hr2⟩
    · left; omega
    · left; omega
    · left; omega
    · exact Or.inr ⟨by omega, strLe_trans as bs cs hr1 hr2⟩

instance : IsTotal HistoryEntry dateDesc :=
  ⟨fun x y => (strLe_total y.date x.date).imp (fun h => h) (fun h => h)⟩

instance : IsTrans HistoryEntry dateDesc :=
  ⟨fun _ _ _ h1 h2 => strLe_trans _ _ _ h2 h1⟩

/-- The function `splitNl` never returns the empty list (so indexing `[0]` succeeds). -/
theorem splitNl_ne_nil : ∀ s : Str, splitNl s ≠ []
  | [] => by simp [splitNl]
  | c :: cs => by
    simp only [splitNl]
    by_cases h : c = '\n'
    · simp [h]
    · simp only [h, if_neg, if_false]
      cases hs : splitNl cs <;> simp

/-- The stored meal label is the prefix of the text before its first
newline. -/
theorem mealLabel_eq_takeWhile (s : Str) :
    mealLabel s = s.takeWhile (fun c => c ≠ '\n') := by
  induction s with
  | nil => rfl
  | cons c cs ih =>
    simp only [mealLabel, splitNl] at ih ⊢
    by_cases h : c = '\n'
    · simp [h, List.takeWhile]
    · simp only [h, if_false, if_neg]
      cases hs : splitNl cs with
      | nil => exact absurd hs (splitNl_ne_nil cs)
      | cons piece rest =>
        rw [hs] at ih
        simp only [List.headD] at ih
        simp [List.takeWhile, h, decide_not, ih]

/-- Looking up a freshly appended user finds exactly the appended hash. -/
theorem findUser_append_self (users : UsersTable) (u hsh : Str)
    (hfresh : ∀ r ∈ users, r.1 ≠ u) :
    findUser (users ++ [(u, hsh)]) u = some hsh := by
  induction users with
  | nil => simp [findUser]
  | cons r rs ih =>
    have hr : r.1 ≠ u := hfresh r (by simp)
    have ih2 := ih fun x hx => hfresh x (by simp [hx])
    simp only [findUser, List.cons_append] at ih2 ⊢
    rw [List.find?_cons_of_neg _ (by simpa using hr)]
    exact ih2

/-- A word renders as exactly 8 hex characters. -/
theorem length_wordHex (n : Nat) : (wordHex n).length = 8 := by simp [wordHex]

/-- Every digest `hash_pass` produces has exactly 64 characters. -/
theorem length_hash_pass (p : Str) : (hash_pass p).length = 64 := by
  simp [hash_pass, hexDigest, length_wordHex]

/-- Registering a fresh username appends exactly its row and reports
"Account created"; the session is untouched. -/
theorem registerHandler_fresh (users : UsersTable) (s : SessionState) (nu np : Str)
    (hfresh : ∀ r ∈ users, r.1 ≠ nu) :
    registerHandler users s nu np
      = ⟨users ++ [(nu, hash_pass np)], s, "Account created"⟩ := by
  have hany : (users.any fun r => decide (r.1 = nu)) = false := by
    simp only [List.any_eq_false, decide_eq_true_eq]
    exact hfresh
  simp [registerHandler, createUser, hany, accountCreationMessage]

/-- Registering a present username reports "Username exists" and leaves
both the table and the session untouched. -/
theorem registerHandler_dup (users : UsersTable) (s : SessionState) (nu np : Str)
    (hdup : ∃ r ∈ users, r.1 = nu) :
    registerHandler users s nu np = ⟨users, s, "Username exists"⟩ := by
  obtain ⟨r, hr, he⟩ := hdup
  have hany : (users.any fun r => decide (r.1 = nu)) = true :=
    List.any_eq_true.mpr ⟨r, hr, by simp [he]⟩
  simp [registerHandler, createUser, hany, accountCreationMessage]

/-- The Create Account handler never touches the session state. -/
theorem registerHandler_session (users : UsersTable) (s : SessionState) (nu np : Str) :
    (registerHandler users s nu np).session = s := by
  unfold registerHandler
  cases createUser users nu (hash_pass np) <;> rfl

/-! ## Concrete rows and texts used in the claims -/

/-- A history row dated 1 February 2025 (chronologically the later one). -/
def entryFeb : HistoryEntry :=
  ⟨str "ana", str "01-02-2025 10:00", str "Toast", 300, str "Toast"⟩

/-- A history row dated 15 January 2025 (chronologically the earlier one). -/
def entryJan : HistoryEntry :=
  ⟨str "ana", str "15-01-2025 09:00", str "Soup", 200, str "Soup"⟩

/-- A history row of a different user, overlapping `entryJan`'s date. -/
def entryOther : HistoryEntry :=
  ⟨str "bob", str "15-01-2025 09:00", str "Cake", 700, str "Cake"⟩

/-- Modelled from the spec: `extractMacros` with the digits "each
optionally separated by colon/whitespace" — i.e. with the separator run
allowed to be empty (`[:\s]*`), where the code's `[:\s]+` demands at
least one separator character. Only this optionality differs from
`matchSepDigits`. -/
def matchSepDigitsOpt (s : Str) : Option Nat :=
  let ds := (s.dropWhile isSepChar).takeWhile Char.isDigit
  if ds.isEmpty then none else some (digitsToNat ds)

/-- Modelled from the spec: the `Protein` pattern with optional separator. -/
def matchProteinSpecAt (s : Str) : Option Nat :=
  match consumeCI (str "protein") s with
  | none => none
  | some r => matchSepDigitsOpt r

/-- Modelled from the spec: the `Carb…` pattern with optional separator. -/
def matchCarbSpecAt (s : Str) : Option Nat :=
  match consumeCI (str "carb") s with
  | none => none
  | some r => matchSepDigitsOpt (r.dropWhile isWordChar)

/-- Modelled from the spec: the `Fat…` pattern with optional separator. -/
def matchFatSpecAt (s : Str) : Option Nat :=
  match consumeCI (str "fat") s with
  | none => none
  | some r => matchSepDigitsOpt (r.dropWhile isWordChar)

/-- Modelled from the spec: `extractMacros` as the spec words it, with the
separators optional rather than required. -/
def extract_macros_spec (text : Str) : Option Nat × Option Nat × Option Nat :=
  let p := reSearch matchProteinSpecAt text
  let c := reSearch matchCarbSpecAt text
  let f := reSearch matchFatSpecAt text
  match p, c, f with
  | some pv, some cv, some fv => (some pv, some cv, some fv)
  | _, _, _ => (none, none, none)

/-! ## The claims -/

/-- C1: listing history returns exactly the stored rows whose username is
`u` — never another user's, even with overlapping dates — ordered by the
stored "DD-MM-YYYY HH:MM" string in descending lexicographic order; that
order is not chronological across month boundaries: "01-02-2025" is
lexicographically before "15-01-2025", so the descending listing of the
two rows puts the January 15 row first even though February 1 is the
more recent meal (and a same-dated row of another user is excluded). -/
theorem history_listing_ok :
    (∀ (hist : HistoryTable) (u : Str),
        (listHistory hist u).Perm (hist.filter fun e => decide (e.username = u))
      ∧ (listHistory hist u).Sorted dateDesc
      ∧ (∀ e ∈ listHistory hist u, e.username = u))
  ∧ strLe (str "01-02-2025") (str "15-01-2025") = true
  ∧ listHistory [entryFeb, entryOther, entryJan] (str "ana") = [entryJan, entryFeb] := by
  refine ⟨fun hist u => ⟨List.perm_insertionSort _ _, List.sorted_insertionSort _ _, ?_⟩,
    by decide, by decide⟩
  intro e he
  have hmem : e ∈ hist.filter fun e => decide (e.username = u) :=
    ((List.perm_insertionSort dateDesc _).mem_iff).mp he
  simpa using (List.mem_filter.mp hmem).2

/-- Closed instance of C1's universally quantified part, at a concrete
table where two users share a date. -/
theorem history_listing_ok_witness :
    entryJan.username = str "ana" :=
  (history_listing_ok.1 [entryFeb, entryOther, entryJan] (str "ana")).2.2
    entryJan (by decide)

/-- C2 counterexample: the separator in `extract_macros` is not optional.
On "Protein20 Carbs: 50 Fat: 10" the code's `Protein[:\s]+(\d+)` fails —
so the code returns the uniform absent triple — while the spec's
"optionally separated" reading extracts (20, 50, 10). -/
theorem extract_macros_counterexample :
    extract_macros (str "Protein20 Carbs: 50 Fat: 10") = (none, none, none)
  ∧ extract_macros_spec (str "Protein20 Carbs: 50 Fat: 10")
      = (some 20, some 50, some 10) := by
  constructor <;> decide

/-- C2 (amended): the searches are case-insensitive, for "Protein", any
word starting "Carb" and any word starting "Fat", each separated from the
digits by one or more colon/whitespace characters (the separator is
required); the result is the triple of first matches exactly when all
three patterns match and the uniform absent triple — never a partial
one — whenever any is missing. -/
theorem extract_macros_ok :
    (∀ text : Str,
        (∃ p c f, extract_macros text = (some p, some c, some f))
      ∨ extract_macros text = (none, none, none))
  ∧ (∀ text p c f,
      reSearch matchProteinAt text = some p →
      reSearch matchCarbAt text = some c →
      reSearch matchFatAt text = some f →
      extract_macros text = (some p, some c, some f))
  ∧ (∀ text : Str,
      reSearch matchProteinAt text = none ∨ reSearch matchCarbAt text = none
        ∨ reSearch matchFatAt text = none →
      extract_macros text = (none, none, none))
  ∧ extract_macros (str "Protein: 20 Carbs: 50 Fat: 10") = (some 20, some 50, some 10)
  ∧ extract_macros (str "Protein: 20 Carbs: 50") = (none, none, none)
  ∧ extract_macros (str "pRoTeIn 20, carbohydrates: 50 g, FATS 10 fat 99")
      = (some 20, some 50, some 10) := by
  refine ⟨fun text => ?_, fun text p c f hp hc hf => ?_, fun text h => ?_,
    by decide, by decide, by decide⟩
  · rcases hp : reSearch matchProteinAt text with _ | pv <;>
      rcases hc : reSearch matchCarbAt text with _ | cv <;>
      rcases hf : reSearch matchFatAt text with _ | fv <;>
      simp [extract_macros, hp, hc, hf]
  · simp [extract_macros, hp, hc, hf]
  · rcases hp : reSearch matchProteinAt text with _ | pv <;>
      rcases hc : reSearch matchCarbAt text with _ | cv <;>
      rcases hf : reSearch matchFatAt text with _ | fv <;>
      simp_all [extract_macros]

/-- Closed instance of C2's amended all-or-nothing clauses. -/
theorem extract_macros_ok_witness :
    extract_macros (str "Protein: 8 Fat: 2") = (none, none, none) :=
  extract_macros_ok.2.2.1 (str "Protein: 8 Fat: 2") (Or.inr (Or.inl (by decide)))

/-- C3: `extract_calories` returns the integer of the first
case-insensitive match of `calorie[s]?` with optional colon/dash and
whitespace before the digits, and 0 when nothing matches; in particular
450, 0 and 120 on the spec's three examples. -/
theorem extract_calories_ok :
    extract_calories (str "Calories: 450 kcal") = 450
  ∧ extract_calories (str "no numbers here") = 0
  ∧ extract_calories (str "Calorie - 120") = 120
  ∧ (∀ text : Str, reSearch matchCaloriesAt text = none → extract_calories text = 0)
  ∧ (∀ (text : Str) (n : Nat),
      reSearch matchCaloriesAt text = some n → extract_calories text = n)
  ∧ extract_calories (str "CALORIE-7 then calories 9") = 7 := by
  refine ⟨by decide, by decide, by decide, fun text h => ?_, fun text n h => ?_, by decide⟩
  · simp [extract_calories, h]
  · simp [extract_calories, h]

/-- Closed instance of C3's no-match and first-match clauses. -/
theorem extract_calories_ok_witness :
    extract_calories (str "fruit salad") = 0 :=
  extract_calories_ok.2.2.2.1 (str "fruit salad") (by decide)

/-- C4: from an Anonymous session, submitting login with `u`, `p` yields
an Authenticated session bound to `u` (with no error) if and only if a
stored user `u` exists whose stored hash equals the SHA-256 hex digest of
`p`; in every other case the session is left as it was — still
Anonymous — and "Invalid credentials" is surfaced. -/
theorem login_ok :
    ∀ (users : UsersTable) (s : SessionState) (u p : Str),
      s.logged_in = false →
        ((loginHandler users s u p).session = ⟨true, u⟩
              ∧ (loginHandler users s u p).error = none
            ↔ findUser users u = some (hash_pass p))
        ∧ (findUser users u ≠ some (hash_pass p) →
            loginHandler users s u p = ⟨s, some "Invalid credentials"⟩) := by
  intro users s u p hanon
  constructor
  · constructor
    · rintro ⟨h1, h2⟩
      rcases hf : findUser users u with _ | stored
      · simp [loginHandler, hf] at h2
      · by_cases he : stored = hash_pass p
        · exact congrArg some he
        · simp [loginHandler, hf, he] at h2
    · intro hf
      simp [loginHandler, hf]
  · intro hne
    rcases hf : findUser users u with _ | stored
    · simp [loginHandler, hf]
    · have he : stored ≠ hash_pass p := fun he => hne (by rw [hf, he])
      simp [loginHandler, hf, he]

/-- Closed instance of C4: a correct login from the initial Anonymous
session authenticates as that user, and an unknown username is rejected
with the session left Anonymous. -/
theorem login_ok_witness :
    (loginHandler [(str "alice", hash_pass (str "pw"))] initSession
        (str "alice") (str "pw")).session = ⟨true, str "alice"⟩
  ∧ loginHandler [] initSession (str "alice") (str "pw")
      = ⟨initSession, some "Invalid credentials"⟩ :=
  ⟨((login_ok [(str "alice", hash_pass (str "pw"))] initSession
      (str "alice") (str "pw") rfl).1.mpr (by simp [findUser])).1,
   (login_ok [] initSession (str "alice") (str "pw") rfl).2
     (by simp [findUser])⟩

/-- C5: registering a fresh username appends exactly its row (retrievable
afterwards), reports "Account created" and leaves the session alone;
registering a present username leaves the table unchanged and reports
"Username exists"; and the handler's bare catch maps every account
creation failure, whichever it is, to the same "Username exists". -/
theorem register_ok :
    ∀ (users : UsersTable) (s : SessionState) (nu np : Str),
      ((∀ r ∈ users, r.1 ≠ nu) →
          registerHandler users s nu np
              = ⟨users ++ [(nu, hash_pass np)], s, "Account created"⟩
            ∧ findUser (users ++ [(nu, hash_pass np)]) nu = some (hash_pass np))
      ∧ ((∃ r ∈ users, r.1 = nu) →
          registerHandler users s nu np = ⟨users, s, "Username exists"⟩)
      ∧ (∀ e : DBError, accountCreationMessage (.error e) = "Username exists")
      ∧ (registerHandler users s nu np).session = s :=
  fun users s nu np =>
    ⟨fun hfresh => ⟨registerHandler_fresh users s nu np hfresh,
        findUser_append_self users nu (hash_pass np) hfresh⟩,
     registerHandler_dup users s nu np,
     fun _ => rfl,
     registerHandler_session users s nu np⟩

/-- Closed instance of C5: registering "bob" twice from an empty table —
fresh success, then duplicate failure with the table unchanged. -/
theorem register_ok_witness :
    registerHandler [] initSession (str "bob") (str "pw")
        = ⟨[(str "bob", hash_pass (str "pw"))], initSession, "Account created"⟩
  ∧ registerHandler [(str "bob", hash_pass (str "pw"))] initSession
        (str "bob") (str "pw2")
      = ⟨[(str "bob", hash_pass (str "pw"))], initSession, "Username exists"⟩ :=
  ⟨((register_ok [] initSession (str "bob") (str "pw")).1 (by simp)).1,
   (register_ok [(str "bob", hash_pass (str "pw"))] initSession
      (str "bob") (str "pw2")).2.1
     ⟨(str "bob", hash_pass (str "pw")), by simp, rfl⟩⟩

/-- The uploaded image of the C6 example. -/
def img6 : UploadedImage := ⟨str "image/jpeg", [255, 216, 255]⟩

/-- The AI response text of the C6 example. -/
def aiResult6 : Str :=
  str "Grilled Chicken Bowl\nCalories: 550\nProtein: 30\nCarbs: 40\nFats: 20"

/-- The local timestamp of the C6 example. -/
def t6 : Timestamp := ⟨7, 10, 2025, 12, 30⟩

/-- C6: with an image uploaded, a successful analysis for logged-in user
`u` appends exactly one history row: username `u`, the formatted
"DD-MM-YYYY HH:MM" timestamp, the first line of the AI result as meal,
`extract_calories` of the result, and the full result as details — on
the "Grilled Chicken Bowl" example, meal "Grilled Chicken Bowl",
calories 550 and the full text as details. -/
theorem analyse_insert_ok :
    (∀ (hist : HistoryTable) (u : Str) (img : UploadedImage)
        (aiResult : Str) (now : Timestamp),
        analyseHandler hist u (some img) aiResult now
          = ⟨hist ++ [⟨u, formatDate now, aiResult.takeWhile (fun c => c ≠ '\n'),
                extract_calories aiResult, aiResult⟩], none, true⟩)
  ∧ analyseHandler [] (str "ana") (some img6) aiResult6 t6
      = ⟨[⟨str "ana", str "07-10-2025 12:30", str "Grilled Chicken Bowl",
            550, aiResult6⟩], none, true⟩ := by
  refine ⟨fun hist u img aiResult now => ?_, by decide⟩
  simp [analyseHandler, mealLabel_eq_takeWhile]

/-- C7: triggering analysis with no uploaded image surfaces
"Upload image first", makes no AI call, and leaves the history table
exactly as it was. -/
theorem missing_upload_ok :
    ∀ (hist : HistoryTable) (u : Str) (aiResult : Str) (now : Timestamp),
      analyseHandler hist u none aiResult now
        = ⟨hist, some "Upload image first", false⟩ :=
  fun _ _ _ _ => rfl

/-- C8: a history card is rendered with 🔴 and #FF5252 exactly when its
calories reach the 500 threshold, with 🟢 and #81C784 strictly below it,
and the boundary value 500 itself is classified high. -/
theorem calorie_flag_ok :
    ∀ e : HistoryEntry,
      (HIGH_CAL_THRESHOLD ≤ e.calories →
          renderCard e = ("🔴", e.meal, "#FF5252"))
      ∧ (e.calories < HIGH_CAL_THRESHOLD →
          renderCard e = ("🟢", e.meal, "#81C784"))
      ∧ (e.calories = 500 → renderCard e = ("🔴", e.meal, "#FF5252")) := by
  intro e
  refine ⟨fun h => ?_, fun h => ?_, fun h => ?_⟩
  · simp [renderCard, cardColor, cardIcon, h]
  · simp [renderCard, cardColor, cardIcon, Nat.not_le.mpr h]
  · simp [renderCard, cardColor, cardIcon, HIGH_CAL_THRESHOLD, h]

/-- Closed instance of C8 at the three calorie levels 600, 300, 500. -/
theorem calorie_flag_ok_witness :
    renderCard ⟨str "ana", str "07-10-2025 12:30", str "Feast", 600, []⟩
        = ("🔴", str "Feast", "#FF5252")
  ∧ renderCard ⟨str "ana", str "07-10-2025 12:30", str "Snack", 300, []⟩
        = ("🟢", str "Snack", "#81C784")
  ∧ renderCard ⟨str "ana", str "07-10-2025 12:30", str "Lunch", 500, []⟩
        = ("🔴", str "Lunch", "#FF5252") :=
  ⟨(calorie_flag_ok _).1 (by decide),
   (calorie_flag_ok _).2.1 (by decide),
   (calorie_flag_ok _).2.2 rfl⟩

/-- C9: registration validates nothing — an empty username (and empty
password) not yet present is accepted and stored as a row whose username
is the empty string, hashing the empty password to an ordinary 64-hex-
character digest like any other password. -/
theorem empty_registration_ok :
    (∀ (users : UsersTable) (s : SessionState),
        (∀ r ∈ users, r.1 ≠ ([] : Str)) →
          registerHandler users s [] []
            = ⟨users ++ [(([] : Str), hash_pass [])], s, "Account created"⟩)
  ∧ (hash_pass []).length = 64
  ∧ (∀ p : Str, (hash_pass p).length = 64) :=
  ⟨fun users s hfresh => registerHandler_fresh users s [] [] hfresh,
   length_hash_pass [],
   length_hash_pass⟩

/-- Closed instance of C9: the empty registration on an empty table. -/
theorem empty_registration_ok_witness :
    registerHandler [] initSession [] []
      = ⟨[(([] : Str), hash_pass [])], initSession, "Account created"⟩ :=
  empty_registration_ok.1 [] initSession (by simp)

/-- C10: the stored meal label is exactly the prefix of the AI result
before its first newline: the whole text when it has no newline, and the
empty string when the text begins with a newline. -/
theorem meal_label_ok :
    (∀ result : Str, mealLabel result = result.takeWhile (fun c => c ≠ '\n'))
  ∧ (∀ result : Str, '\n' ∉ result → mealLabel result = result)
  ∧ (∀ rest : Str, mealLabel ('\n' :: rest) = []) := by
  refine ⟨mealLabel_eq_takeWhile, fun result h => ?_, fun rest => ?_⟩
  · rw [mealLabel_eq_takeWhile]
    rw [List.takeWhile_eq_self_iff]
    intro c hc
    have hne : c ≠ '\n' := fun he => h (he ▸ hc)
    simp [hne]
  · simp [mealLabel, splitNl]

/-- Closed instance of C10's newline-free clause. -/
theorem meal_label_ok_witness :
    mealLabel (str "Grilled Chicken Bowl") = str "Grilled Chicken Bowl" :=
  meal_label_ok.2.1 (str "Grilled Chicken Bowl") (by decide)

end NutriVision
